import Mathlib

/-!
Shallow embedding of the order-assistant customer-support service
(`app/agent.py`, `app/main.py`, `app/database.py`, `app/knowledge_base.py`).

Modelling conventions:
* ORM rows become Lean structures; the relationships navigated by the tools
  (`order.customer`, `order.items`, `item.product`) are embedded directly in
  the `Order` record, matching how `app/agent.py` consumes them.
* The database session becomes an explicit `DB` state value; tools that write
  (`initiate_return`) return the updated state alongside their result.
* Timestamps are modelled at day granularity as integers, so Python's
  `(datetime.utcnow() - order.order_date).days` becomes `now - order_date`.
* Monetary values are rationals; `f"${x:.2f}"` becomes `formatUSD`.
* External collaborators (the LLM, the SQL engine, the vector store, uuid4)
  are parameters of the functions that call them.
-/

namespace OrderAssist

/-! ## Definitions: the embedded data model, tools, and endpoint -/

/-- Embeds the `Customer` ORM model. -/
structure Customer where
  id : Nat
  name : String
  email : String
  phone : String
deriving DecidableEq

/-- Embeds the `Product` ORM model. -/
structure Product where
  id : Nat
  sku : String
  name : String
  price : Rat
deriving DecidableEq

/-- Embeds the `OrderItem` ORM model, with the `product` relationship resolved. -/
structure OrderItem where
  product : Product
  quantity : Nat
deriving DecidableEq

/-- Embeds the `Order` ORM model, with the `customer` and `items`
relationships resolved, as `app/agent.py` navigates them. -/
structure Order where
  id : String
  customer : Customer
  total : Rat
  status : String
  order_date : Int
  items : List OrderItem
deriving DecidableEq

/-- Embeds the `ReturnRequest` ORM model (table `returns`). -/
structure ReturnRequest where
  id : String
  order_id : String
  product_sku : String
  reason : String
  status : String
  created_at : Int
deriving DecidableEq

/-- The relational store: one list per table. -/
structure DB where
  customers : List Customer
  orders : List Order
  products : List Product
  returns : List ReturnRequest
deriving DecidableEq

/-- Models `db.query(Order).filter(Order.id == order_id).first()`. -/
def findOrder (db : DB) (order_id : String) : Option Order :=
  db.orders.find? (fun o => o.id == order_id)

/-- Models Python's `str.lower()` on the ASCII strings this service compares.
This is `String.toLower` written directly over the character data (the library
function recurses on byte positions, which proofs cannot evaluate). -/
def lowerStr (s : String) : String := ⟨s.data.map Char.toLower⟩

/-- Models the date rendering `order.order_date.strftime("%Y-%m-%d")` at the
embedding's day granularity (dates are integers, so rendering is `toString`). -/
def formatDate (d : Int) : String := toString d

/-- Models Python's fixed-two-decimal rendering used in `f"${x:.2f}"`. -/
def fixed2 (q : Rat) : String :=
  let c : Int := round (100 * q)
  let a : Nat := c.natAbs
  (if c < 0 then "-" else "") ++ toString (a / 100) ++ "." ++
    (if a % 100 < 10 then "0" else "") ++ toString (a % 100)

/-- Models `f"${x:.2f}"`. -/
def formatUSD (q : Rat) : String := "$" ++ fixed2 q

/-- One entry of the `items` list returned by `get_order_status`. -/
structure ItemView where
  name : String
  sku : String
  quantity : Nat
  price : Rat
deriving DecidableEq

/-- Result dictionary of `get_order_status`: either `{success: False, message}`
or the full success payload.  A failure carries a message and nothing else. -/
inductive OrderStatusResult where
  | failure (message : String)
  | success (order_id : String) (status : String) (order_date : String)
      (total : String) (items : List ItemView) (customer_name : String)
deriving DecidableEq

/-- Failure message `f"Order {order_id} not found in our system."`. -/
def statusNotFoundMsg (order_id : String) : String :=
  s!"Order {order_id} not found in our system."

/-- Failure message for a mismatched email in `get_order_status`. -/
def statusEmailMsg : String := "The email doesn't match our records for this order."

/-- Embeds the tool `get_order_status(order_id, customer_email)`. -/
def get_order_status (db : DB) (order_id customer_email : String) : OrderStatusResult :=
  match findOrder db order_id with
  | none => .failure (statusNotFoundMsg order_id)
  | some order =>
    if lowerStr order.customer.email ≠ lowerStr customer_email then
      .failure statusEmailMsg
    else
      .success order.id order.status (formatDate order.order_date)
        (formatUSD order.total)
        (order.items.map fun item =>
          ⟨item.product.name, item.product.sku, item.quantity, item.product.price⟩)
        order.customer.name

/-- A concrete store used by the witnesses below. -/
def johnCustomer : Customer :=
  { id := 1, name := "John Doe", email := "john@example.com", phone := "555-0100" }

/-- A concrete product used by the witnesses below. -/
def headphonesProduct : Product :=
  { id := 1, sku := "SKU001", name := "Wireless Headphones", price := 50 }

/-- A concrete order used by the witnesses below. -/
def ord001 : Order :=
  { id := "ORD001", customer := johnCustomer, total := 50, status := "delivered",
    order_date := 0, items := [{ product := headphonesProduct, quantity := 1 }] }

/-- A concrete store with one customer, one order, one product, no returns. -/
def exampleDB : DB :=
  { customers := [johnCustomer], orders := [ord001],
    products := [headphonesProduct], returns := [] }

/-- Failure message `f"Order {order_id} not found."`. -/
def returnNotFoundMsg (order_id : String) : String := s!"Order {order_id} not found."

/-- Failure message for a mismatched email in `initiate_return`. -/
def returnEmailMsg : String := "Email doesn't match order records."

/-- Failure message `f"Product {product_sku} not found in order {order_id}."`. -/
def returnSkuMsg (product_sku order_id : String) : String :=
  s!"Product {product_sku} not found in order {order_id}."

/-- Failure message for an expired return window. -/
def returnExpiredMsg (days : Int) : String :=
  s!"Return window has expired. Order was placed {days} days ago (limit: 30 days)."

/-- Models the membership loop over `order.items` comparing `item.product.sku`
to the requested SKU with Python `==` (exact string equality). -/
def skuInOrder (order : Order) (product_sku : String) : Bool :=
  order.items.any fun item => item.product.sku == product_sku

/-- The generated identifier `f"RET{random.randint(1000, 9999)}"`, as a
function of the drawn random value. -/
def retIdStr (rand : Nat) : String := s!"RET{rand}"

/-- Result dictionary of `initiate_return`: `{success: False, message}` or the
success payload `{success: True, return_id, message, next_steps}`. -/
inductive InitiateReturnResult where
  | failure (message : String)
  | success (return_id : String) (message : String) (next_steps : String)
deriving DecidableEq

/-- Embeds the tool `initiate_return(order_id, product_sku, reason,
customer_email)`.  `now` is the day `datetime.utcnow()` falls on and `rand`
is the value drawn by `random.randint(1000, 9999)`; the updated store is
returned alongside the result (`db.add` + `db.commit`). -/
def initiate_return (now : Int) (rand : Nat) (db : DB)
    (order_id product_sku reason customer_email : String) :
    InitiateReturnResult × DB :=
  match findOrder db order_id with
  | none => (.failure (returnNotFoundMsg order_id), db)
  | some order =>
    if lowerStr order.customer.email ≠ lowerStr customer_email then
      (.failure returnEmailMsg, db)
    else if ¬ skuInOrder order product_sku then
      (.failure (returnSkuMsg product_sku order_id), db)
    else
      let days_since_order : Int := now - order.order_date
      if days_since_order > 30 then
        (.failure (returnExpiredMsg days_since_order), db)
      else
        let return_id := retIdStr rand
        (.success return_id
          s!"Return request created successfully! Return ID: {return_id}. We'll email you a return label within 24 hours."
          "Pack the item in its original packaging and wait for the return label.",
         { db with returns := db.returns ++
            [{ id := return_id, order_id := order_id, product_sku := product_sku,
               reason := reason, status := "pending", created_at := now }] })

/-- Recognizes strings of the form `RET` followed by exactly four decimal
digits (the spec's pattern `RET\d{4}`). -/
def isRETId (s : String) : Bool :=
  match s.data with
  | 'R' :: 'E' :: 'T' :: ds => ds.length == 4 && ds.all Char.isDigit
  | _ => false

/-- An argument tuple for one `initiate_return` call:
(order id, product SKU, reason, customer email). -/
abbrev ReturnCall := String × String × String × String

/-- Runs a sequence of `initiate_return` calls, threading the store. -/
def runCalls (now : Int) (rand : Nat) : List ReturnCall → DB → DB
  | [], db => db
  | c :: cs, db => runCalls now rand cs (initiate_return now rand db c.1 c.2.1 c.2.2.1 c.2.2.2).2

/-- Every call in the sequence comes back as a failure, each evaluated in the
store produced by its predecessors. -/
def allCallsFail (now : Int) (rand : Nat) : List ReturnCall → DB → Prop
  | [], _ => True
  | c :: cs, db =>
    (∃ m, (initiate_return now rand db c.1 c.2.1 c.2.2.1 c.2.2.2).1 = .failure m) ∧
    allCallsFail now rand cs (initiate_return now rand db c.1 c.2.1 c.2.2.1 c.2.2.2).2

/-- One order summary in the `orders` list returned by `list_customer_orders`. -/
structure OrderSummary where
  order_id : String
  status : String
  total : String
  date : String
  items_count : Nat
deriving DecidableEq

/-- Result dictionary of `list_customer_orders`. -/
inductive ListOrdersResult where
  | failure (message : String)
  | success (customer_name : String) (orders : List OrderSummary)
deriving DecidableEq

/-- Failure message of `list_customer_orders`. -/
def noCustomerMsg : String := "No customer found with that email."

/-- Models `db.query(Customer).filter(Customer.email == customer_email).first()`.
The SQL `=` on this SQLite text column is exact (binary collation), so the
comparison is Python-level string equality, not a case-insensitive one. -/
def findCustomer (db : DB) (customer_email : String) : Option Customer :=
  db.customers.find? (fun c => c.email == customer_email)

/-- Models the ORM relationship `customer.orders` (orders whose foreign key
`customer_id` is this customer's id). -/
def customerOrders (db : DB) (c : Customer) : List Order :=
  db.orders.filter (fun o => o.customer.id == c.id)

/-- The summary built for one order inside `list_customer_orders`. -/
def summarizeOrder (o : Order) : OrderSummary :=
  { order_id := o.id, status := o.status, total := formatUSD o.total,
    date := formatDate o.order_date, items_count := o.items.length }

/-- Embeds the tool `list_customer_orders(customer_email)`. -/
def list_customer_orders (db : DB) (customer_email : String) : ListOrdersResult :=
  match findCustomer db customer_email with
  | none => .failure noCustomerMsg
  | some customer =>
    .success customer.name ((customerOrders db customer).map summarizeOrder)

/-- A value in a result cell.  SQLite hands back numbers, text, or NULL;
`num` covers both integer and real results. -/
inductive SqlValue where
  | num (q : Rat)
  | text (s : String)
  | null
deriving DecidableEq

/-- One result row as the field-name-to-value dictionary built by
`dict(zip(columns, row))`. -/
abbrev Row := List (String × SqlValue)

/-- What `db.execute(...)` hands back: column names and raw rows.  An `error`
models a raised database exception (message = `str(e)`). -/
structure ExecOutcome where
  columns : List String
  rows : List (List SqlValue)

/-- The database engine as seen by `execute_safe_query`. -/
def DbExec := String → Except String ExecOutcome

/-- The denylist `dangerous_keywords` of `execute_safe_query`, in source
order. -/
def dangerous_keywords : List String :=
  ["INSERT", "UPDATE", "DELETE", "DROP", "ALTER",
   "CREATE", "TRUNCATE", "REPLACE", "GRANT", "REVOKE"]

/-- Models Python's `str.upper()` over the ASCII strings involved, at the
character-data level. -/
def upperData (s : String) : List Char := s.data.map Char.toUpper

/-- Models the membership test `keyword in query_upper` (substring check on
the uppercased query). -/
def containsKeyword (q : String) (kw : String) : Bool :=
  decide (kw.data <:+: upperData q)

/-- Error message of the raised `ValueError(f"Dangerous operation detected:
{keyword}")`. -/
def dangerMsg (kw : String) : String := s!"Dangerous operation detected: {kw}"

/-- The first cell of the first result row, `list(data[0].values())[0]`
(only consulted when `data` is non-empty; a result row from the engine always
carries at least one column, so the defaults are never reached there). -/
def firstCell (data : List Row) : SqlValue :=
  match data with
  | [] => .num 0
  | r :: _ =>
    match r with
    | [] => .num 0
    | (_, v) :: _ => v

/-- Renders a cell for interpolation into an explanation sentence (models
Python's `str()`; the exact numeral formatting is immaterial to the claims). -/
def showCell : SqlValue → String
  | .num q => if q.den = 1 then toString q.num else fixed2 q
  | .text s => s
  | .null => "None"

/-- Embeds `generate_result_explanation(sql_query, data)`. -/
def generate_result_explanation (sql_query : String) (data : List Row) : String :=
  if data.isEmpty then "No results found."
  else if containsKeyword sql_query "COUNT" then
    s!"Found {showCell (firstCell data)} records matching your criteria."
  else if containsKeyword sql_query "SUM" then
    match firstCell data with
    | .num q => s!"Total sum: ${fixed2 q}"
    | v => s!"Total: {showCell v}"
  else if containsKeyword sql_query "AVG" then
    match firstCell data with
    | .num q => s!"Average value: {fixed2 q}"
    | v => s!"Average: {showCell v}"
  else s!"Retrieved {toString data.length} record(s)."

/-- The dictionary `execute_safe_query` returns on the non-raising path. -/
structure ExecResult where
  data : List Row
  count : Nat
  explanation : String
deriving DecidableEq

/-- Embeds `execute_safe_query(db, sql_query)`: scan the uppercased query for
the first denylisted keyword and raise (model: `.error`) if one occurs
anywhere in it; otherwise run the query and package rows, count, and gloss. -/
def execute_safe_query (dbExec : DbExec) (sql_query : String) : Except String ExecResult :=
  match dangerous_keywords.find? (fun kw => containsKeyword sql_query kw) with
  | some keyword => .error (dangerMsg keyword)
  | none =>
    match dbExec sql_query with
    | .error e => .error e
    | .ok out =>
      let data := out.rows.map (fun r => out.columns.zip r)
      .ok { data := data, count := data.length,
            explanation := generate_result_explanation sql_query data }

/-- Result dictionary of `query_database`: the failure envelope `{success:
False, error, message}` or the success payload. -/
inductive QueryDatabaseResult where
  | failure (error : String) (message : String)
  | success (question : String) (sql_query : String) (results : List Row)
      (row_count : Nat) (explanation : String)
deriving DecidableEq

/-- The generic user-facing failure message of `query_database`. -/
def rephraseMsg : String := "I couldn't execute that query. Please rephrase your question."

/-- Embeds the tool `query_database(question)`.  `synthesize` is the outcome
of `generate_sql_from_question` (the LLM call; `.error` models a raised
exception with `str(e)`), and any error raised inside the `try` block lands
in the single `except` clause that builds the failure envelope. -/
def query_database (synthesize : Except String String) (dbExec : DbExec)
    (question : String) : QueryDatabaseResult :=
  match synthesize with
  | .error e => .failure e rephraseMsg
  | .ok sql_query =>
    match execute_safe_query dbExec sql_query with
    | .error e => .failure e rephraseMsg
    | .ok result => .success question sql_query result.data result.count result.explanation

/-- A retrieved document: its text and its `metadata["type"]` tag (absent
metadata gives the `"unknown"` default of `metadata.get`). -/
structure KDoc where
  page_content : String
  mtype : Option String
deriving DecidableEq

/-- The source-type label used in the formatted output,
`doc.metadata.get('type', 'unknown')`. -/
def sourceTag (doc : KDoc) : String := doc.mtype.getD "unknown"

/-- One formatted passage, `f"**Source: {tag}**\n{content}"`. -/
def formatDoc (doc : KDoc) : String :=
  "**Source: " ++ sourceTag doc ++ "**\n" ++ doc.page_content

/-- Models `"\n\n".join(entries)`. -/
def joinBlank : List String → String
  | [] => ""
  | [x] => x
  | x :: xs => x ++ "\n\n" ++ joinBlank xs

/-- The explicit empty-result sentinel string. -/
def noInfoSentinel : String := "No relevant information found in company knowledge base."

/-- Embeds the tool `search_company_knowledge(query)`; `similarity` is the
vector store's `similarity_search`, called with `k = 3`. -/
def search_company_knowledge (similarity : String → Nat → List KDoc)
    (query : String) : String :=
  let results := similarity query 3
  if results.isEmpty then noInfoSentinel
  else joinBlank (results.map formatDoc)

/-- A message handed to the agent for this turn. -/
inductive AgentMessage where
  | system (content : String)
  | human (content : String)
deriving DecidableEq

/-- The request body of `/chat` (`ChatRequest`): `customer_email` defaults to
the empty string and `session_id` to `None`. -/
structure ChatRequest where
  message : String
  customer_email : String
  session_id : Option String
  enable_sql_queries : Bool

/-- The response body of `/chat` (`ChatResponse`). -/
structure ChatResponse where
  response : String
  session_id : String
deriving DecidableEq

/-- The collaborators `chat` consults: the freshly drawn `uuid.uuid4()`, the
checkpointed state `agent.get_state(config)` (`none` models the exception
branch, i.e. no stored history), `get_system_prompt` (defined in `app.agent`,
keyed on the SQL toggle), and the agent's final answer for the messages it
was sent. -/
structure ChatEnv where
  fresh_uuid : String
  stored_state : Option (List AgentMessage)
  system_prompt : Bool → String
  agent_reply : List AgentMessage → String

/-- The stored history is empty at lookup time (a failed lookup counts as
empty, as in the endpoint's `except` branch). -/
def storedEmpty (env : ChatEnv) : Prop :=
  env.stored_state = none ∨ env.stored_state = some []

/-- Embeds the `/chat` endpoint handler: session id echo-or-generate
(`request.session_id or str(uuid.uuid4())`, where `None` and `""` are both
falsy), the identity-hint prefix on the user message, the system-instruction
prepend for new sessions, and the agent invocation.  Returns the response
together with the message list sent to the agent. -/
def chat (env : ChatEnv) (request : ChatRequest) : ChatResponse × List AgentMessage :=
  let session_id := match request.session_id with
    | none => env.fresh_uuid
    | some s => if s = "" then env.fresh_uuid else s
  let user_message := if request.customer_email ≠ "" then
      "[Customer Email: " ++ request.customer_email ++ "]\n" ++ request.message
    else request.message
  let is_new_session := match env.stored_state with
    | none => true
    | some msgs => msgs.isEmpty
  let messages := (if is_new_session then
      [AgentMessage.system (env.system_prompt request.enable_sql_queries)] else [])
    ++ [AgentMessage.human user_message]
  ({ response := env.agent_reply messages, session_id := session_id }, messages)

/-- A concrete environment for the C8 witness: a non-empty stored history. -/
def chatEnvW : ChatEnv :=
  { fresh_uuid := "fresh-uuid", stored_state := some [.human "hi"],
    system_prompt := fun _ => "You are a friendly agent.",
    agent_reply := fun _ => "answer" }

/-- A concrete request for the C8 witness: supplied session id and email. -/
def chatReqW : ChatRequest :=
  { message := "Where is my order?", customer_email := "john@example.com",
    session_id := some "sess-1", enable_sql_queries := false }

/-! ## Theorems: the claims and their supporting lemmas -/

/-- Appending strings appends their character data. -/
theorem data_append (a b : String) : (a ++ b).data = a.data ++ b.data := by
  cases a; cases b; rfl

/-- Two strings whose first characters differ are different strings. -/
theorem ne_of_head_ne {a b : String} {c₁ c₂ : Char}
    (ha : a.data.head? = some c₁) (hb : b.data.head? = some c₂) (h : c₁ ≠ c₂) :
    a ≠ b := by
  intro heq
  rw [heq] at ha
  exact h (Option.some.inj (ha.symm.trans hb))

/-- The not-found message of `get_order_status` starts with the letter `O`. -/
theorem statusNotFoundMsg_head (order_id : String) :
    (statusNotFoundMsg order_id).data.head? = some 'O' := by
  cases order_id with
  | mk l => rfl

/-- The not-found message never coincides with the email-mismatch message
(the former starts with `O`, the latter with `T`). -/
theorem statusNotFoundMsg_ne_emailMsg (order_id : String) :
    statusNotFoundMsg order_id ≠ statusEmailMsg :=
  ne_of_head_ne (statusNotFoundMsg_head order_id) rfl (by decide)

/-- Claim C2: `get_order_status` succeeds exactly when the order exists and the
requester email equals the order's customer email case-insensitively; every
failure result carries only a message, drawn from the two fixed failure
messages (which mention no order field), so no other customer's order data is
ever disclosed. -/
theorem get_order_status_spec (db : DB) (order_id customer_email : String) :
    ((∃ st d t its cn, get_order_status db order_id customer_email =
        .success order_id st d t its cn) ↔
      (∃ o, findOrder db order_id = some o ∧
        lowerStr o.customer.email = lowerStr customer_email))
    ∧ (∀ m, get_order_status db order_id customer_email = .failure m →
        m = statusNotFoundMsg order_id ∨ m = statusEmailMsg) := by
  constructor
  · constructor
    · intro ⟨st, d, t, its, cn, h⟩
      cases hfind : findOrder db order_id with
      | none =>
        simp only [get_order_status, hfind] at h
        exact OrderStatusResult.noConfusion h
      | some o =>
        by_cases hmail : lowerStr o.customer.email = lowerStr customer_email
        · exact ⟨o, rfl, hmail⟩
        · simp only [get_order_status, hfind, if_pos hmail] at h
          exact OrderStatusResult.noConfusion h
    · intro ⟨o, hfind, hmail⟩
      have hid : o.id = order_id := by
        have := List.find?_some hfind
        simpa using this
      refine ⟨o.status, formatDate o.order_date, formatUSD o.total,
        o.items.map (fun item =>
          ⟨item.product.name, item.product.sku, item.quantity, item.product.price⟩),
        o.customer.name, ?_⟩
      simp only [get_order_status, hfind, if_neg (not_not_intro hmail), hid]
  · intro m h
    cases hfind : findOrder db order_id with
    | none =>
      simp only [get_order_status, hfind, OrderStatusResult.failure.injEq] at h
      exact Or.inl h.symm
    | some o =>
      by_cases hmail : lowerStr o.customer.email = lowerStr customer_email
      · simp only [get_order_status, hfind, if_neg (not_not_intro hmail)] at h
        exact OrderStatusResult.noConfusion h
      · simp only [get_order_status, hfind, if_pos hmail,
          OrderStatusResult.failure.injEq] at h
        exact Or.inr h.symm

/-- Witness for C2 at a concrete store: a matching (case-changed) email
succeeds and a wrong email yields one of the two fixed failure messages. -/
theorem get_order_status_spec_witness :
    (∃ st d t its cn, get_order_status exampleDB "ORD001" "JOHN@example.com" =
      .success "ORD001" st d t its cn)
    ∧ (statusEmailMsg = statusNotFoundMsg "ORD001" ∨ statusEmailMsg = statusEmailMsg) := by
  constructor
  · exact (get_order_status_spec exampleDB "ORD001" "JOHN@example.com").1.mpr
      ⟨ord001, by decide, by decide⟩
  · exact (get_order_status_spec exampleDB "ORD001" "wrong@example.com").2
      statusEmailMsg (by decide)

/-- Claim C9: the two failure messages of `get_order_status` distinguish a
missing order from an email mismatch — for any email at all, the not-found
message comes back exactly when the order id is absent from the store, and
that message differs from the mismatch message, so a caller learns whether an
order id exists without ever matching the email. -/
theorem get_order_status_probe (db : DB) (order_id customer_email : String) :
    (findOrder db order_id = none ↔
      get_order_status db order_id customer_email = .failure (statusNotFoundMsg order_id))
    ∧ statusNotFoundMsg order_id ≠ statusEmailMsg := by
  refine ⟨⟨fun h => ?_, fun h => ?_⟩, statusNotFoundMsg_ne_emailMsg order_id⟩
  · simp only [get_order_status, h]
  · cases hfind : findOrder db order_id with
    | none => rfl
    | some o =>
      exfalso
      by_cases hmail : lowerStr o.customer.email = lowerStr customer_email
      · simp only [get_order_status, hfind, if_neg (not_not_intro hmail)] at h
        exact OrderStatusResult.noConfusion h
      · simp only [get_order_status, hfind, if_pos hmail,
          OrderStatusResult.failure.injEq] at h
        exact statusNotFoundMsg_ne_emailMsg order_id h.symm

/-- Unfolding step for the digit-string recursion behind `Nat.repr`. -/
theorem toDigitsCore_succ (b fuel n : Nat) (ds : List Char) :
    Nat.toDigitsCore b (fuel+1) n ds =
      if n / b = 0 then Nat.digitChar (n % b) :: ds
      else Nat.toDigitsCore b fuel (n / b) (Nat.digitChar (n % b) :: ds) := by
  simp [Nat.toDigitsCore]

/-- The digit characters for values below ten are decimal digits. -/
theorem digitChar_isDigit (k : Nat) (h : k < 10) : (Nat.digitChar k).isDigit = true := by
  interval_cases k <;> decide

/-- The decimal digit string of a four-digit number, digit by digit. -/
theorem toDigits_four (a b c d : Nat) (ha1 : 1 ≤ a) (ha : a ≤ 9)
    (hb : b ≤ 9) (hc : c ≤ 9) (hd : d ≤ 9) :
    Nat.toDigits 10 (1000*a + 100*b + 10*c + d) =
      [Nat.digitChar a, Nat.digitChar b, Nat.digitChar c, Nat.digitChar d] := by
  set n := 1000*a + 100*b + 10*c + d with hn
  have h10 : n / 10 = 100*a + 10*b + c := by omega
  have h10m : n % 10 = d := by omega
  have h100 : (100*a + 10*b + c) / 10 = 10*a + b := by omega
  have h100m : (100*a + 10*b + c) % 10 = c := by omega
  have h1000 : (10*a + b) / 10 = a := by omega
  have h1000m : (10*a + b) % 10 = b := by omega
  have ha10 : a / 10 = 0 := by omega
  have ham : a % 10 = a := by omega
  obtain ⟨f, hfe⟩ : ∃ f, n + 1 = (f + 3) + 1 := ⟨n - 3, by omega⟩
  rw [Nat.toDigits, hfe, toDigitsCore_succ, if_neg (by omega), h10, h10m,
    toDigitsCore_succ, if_neg (by omega), h100, h100m,
    toDigitsCore_succ, if_neg (by omega), h1000, h1000m,
    toDigitsCore_succ, if_pos ha10, ham]

/-- Character data of `Nat.repr` for numbers between 1000 and 9999. -/
theorem repr_data_four (n : Nat) (h1 : 1000 ≤ n) (h2 : n ≤ 9999) :
    (Nat.repr n).data = [Nat.digitChar (n / 1000), Nat.digitChar (n / 100 % 10),
      Nat.digitChar (n / 10 % 10), Nat.digitChar (n % 10)] := by
  have h4 := toDigits_four (n/1000) (n/100%10) (n/10%10) (n%10)
    (by omega) (by omega) (by omega) (by omega) (by omega)
  have hn : 1000*(n/1000) + 100*(n/100%10) + 10*(n/10%10) + n%10 = n := by omega
  rw [hn] at h4
  show (Nat.toDigits 10 n).asString.data = _
  rw [show ∀ l : List Char, l.asString.data = l from fun _ => rfl, h4]

/-- The generated identifier `f"RET{random.randint(1000, 9999)}"` matches the
pattern `RET` followed by four digits. -/
theorem isRETId_of_range (n : Nat) (h1 : 1000 ≤ n) (h2 : n ≤ 9999) :
    isRETId (retIdStr n) = true := by
  have hd : (retIdStr n).data = 'R' :: 'E' :: 'T' :: (Nat.repr n).data := by
    rw [retIdStr]
    show ("RET" ++ toString n ++ "").data = _
    rw [show Nat.repr n = toString n from rfl]
    cases toString n with
    | mk l =>
      show (['R','E','T'] ++ l) ++ [] = ['R','E','T'] ++ l
      simp
  rw [isRETId, hd, repr_data_four n h1 h2]
  simp [digitChar_isDigit, show n / 1000 < 10 by omega,
    show n / 100 % 10 < 10 by omega, show n / 10 % 10 < 10 by omega,
    show n % 10 < 10 by omega]

/-- The order-not-found message starts with the letter `O`. -/
theorem returnNotFoundMsg_head (order_id : String) :
    (returnNotFoundMsg order_id).data.head? = some 'O' := by
  cases order_id with
  | mk l => rfl

/-- The email-mismatch message starts with the letter `E`. -/
theorem returnEmailMsg_head : returnEmailMsg.data.head? = some 'E' := rfl

/-- The product-not-in-order message starts with the letter `P`. -/
theorem returnSkuMsg_head (product_sku order_id : String) :
    (returnSkuMsg product_sku order_id).data.head? = some 'P' := by
  cases product_sku with
  | mk l => rfl

/-- The expired-window message starts with the letter `R`. -/
theorem returnExpiredMsg_head (days : Int) :
    (returnExpiredMsg days).data.head? = some 'R' := by
  cases toString days with
  | mk l => rfl

/-- The four check-specific failure messages are pairwise distinct, whatever
order id, SKU, and day count they mention. -/
theorem returnMsgs_pairwise_ne (order_id product_sku : String) (days : Int) :
    List.Pairwise (· ≠ ·) [returnNotFoundMsg order_id, returnEmailMsg,
      returnSkuMsg product_sku order_id, returnExpiredMsg days] := by
  have h1 := ne_of_head_ne (returnNotFoundMsg_head order_id) returnEmailMsg_head (by decide)
  have h2 := ne_of_head_ne (returnNotFoundMsg_head order_id)
    (returnSkuMsg_head product_sku order_id) (by decide)
  have h3 := ne_of_head_ne (returnNotFoundMsg_head order_id)
    (returnExpiredMsg_head days) (by decide)
  have h4 := ne_of_head_ne returnEmailMsg_head
    (returnSkuMsg_head product_sku order_id) (by decide)
  have h5 := ne_of_head_ne returnEmailMsg_head (returnExpiredMsg_head days) (by decide)
  have h6 := ne_of_head_ne (returnSkuMsg_head product_sku order_id)
    (returnExpiredMsg_head days) (by decide)
  simp [List.pairwise_cons, h1, h2, h3, h4, h5, h6]

/-- With no matching order, `initiate_return` fails with the not-found message
and leaves the store unchanged. -/
theorem initiate_return_none_eq (now : Int) (rand : Nat) (db : DB)
    (oid sku reason email : String) (hfind : findOrder db oid = none) :
    initiate_return now rand db oid sku reason email =
      (.failure (returnNotFoundMsg oid), db) := by
  simp only [initiate_return, hfind]

/-- With a mismatched email, `initiate_return` fails with the email message
and leaves the store unchanged. -/
theorem initiate_return_email_eq (now : Int) (rand : Nat) (db : DB)
    (oid sku reason email : String) (o : Order) (hfind : findOrder db oid = some o)
    (hmail : lowerStr o.customer.email ≠ lowerStr email) :
    initiate_return now rand db oid sku reason email = (.failure returnEmailMsg, db) := by
  simp only [initiate_return, hfind, if_pos hmail]

/-- With a SKU outside the order's items, `initiate_return` fails with the
product message and leaves the store unchanged. -/
theorem initiate_return_sku_eq (now : Int) (rand : Nat) (db : DB)
    (oid sku reason email : String) (o : Order) (hfind : findOrder db oid = some o)
    (hmail : lowerStr o.customer.email = lowerStr email)
    (hsku : skuInOrder o sku = false) :
    initiate_return now rand db oid sku reason email =
      (.failure (returnSkuMsg sku oid), db) := by
  simp only [initiate_return, hfind, if_neg (not_not_intro hmail)]
  rw [if_pos (by simp [hsku])]

/-- Past the 30-day window, `initiate_return` fails with the expiry message
and leaves the store unchanged. -/
theorem initiate_return_expired_eq (now : Int) (rand : Nat) (db : DB)
    (oid sku reason email : String) (o : Order) (hfind : findOrder db oid = some o)
    (hmail : lowerStr o.customer.email = lowerStr email)
    (hsku : skuInOrder o sku = true) (hdays : now - o.order_date > 30) :
    initiate_return now rand db oid sku reason email =
      (.failure (returnExpiredMsg (now - o.order_date)), db) := by
  simp only [initiate_return, hfind, if_neg (not_not_intro hmail)]
  rw [if_neg (by simp [hsku]), if_pos hdays]

/-- When all four checks pass, `initiate_return` succeeds and appends exactly
one pending `ReturnRequest` row. -/
theorem initiate_return_success_eq (now : Int) (rand : Nat) (db : DB)
    (oid sku reason email : String) (o : Order) (hfind : findOrder db oid = some o)
    (hmail : lowerStr o.customer.email = lowerStr email)
    (hsku : skuInOrder o sku = true) (hdays : now - o.order_date ≤ 30) :
    initiate_return now rand db oid sku reason email =
      (.success (retIdStr rand)
        s!"Return request created successfully! Return ID: {retIdStr rand}. We'll email you a return label within 24 hours."
        "Pack the item in its original packaging and wait for the return label.",
       { db with returns := db.returns ++
          [{ id := retIdStr rand, order_id := oid, product_sku := sku,
             reason := reason, status := "pending", created_at := now }] }) := by
  simp only [initiate_return, hfind, if_neg (not_not_intro hmail)]
  rw [if_neg (by simp [hsku]), if_neg (by omega)]

/-- Claim C1: `initiate_return` succeeds exactly when the order exists, the
email matches case-insensitively, the SKU is among the order's items, and the
order is at most 30 days old; the checks run in that sequence, the first
failing check produces its own message (the four messages being pairwise
distinct) without touching the store, and on success exactly one new
`ReturnRequest` with status `pending` is persisted whose identifier is `RET`
followed by four digits. -/
theorem initiate_return_spec (now : Int) (rand : Nat) (db : DB)
    (order_id product_sku reason customer_email : String)
    (hr1 : 1000 ≤ rand) (hr2 : rand ≤ 9999) :
    ((∃ rid m ns db', initiate_return now rand db order_id product_sku reason customer_email =
        (.success rid m ns, db')) ↔
      (∃ o, findOrder db order_id = some o ∧
        lowerStr o.customer.email = lowerStr customer_email ∧
        skuInOrder o product_sku = true ∧ now - o.order_date ≤ 30))
    ∧ (findOrder db order_id = none →
        initiate_return now rand db order_id product_sku reason customer_email =
          (.failure (returnNotFoundMsg order_id), db))
    ∧ (∀ o, findOrder db order_id = some o →
        lowerStr o.customer.email ≠ lowerStr customer_email →
        initiate_return now rand db order_id product_sku reason customer_email =
          (.failure returnEmailMsg, db))
    ∧ (∀ o, findOrder db order_id = some o →
        lowerStr o.customer.email = lowerStr customer_email →
        skuInOrder o product_sku = false →
        initiate_return now rand db order_id product_sku reason customer_email =
          (.failure (returnSkuMsg product_sku order_id), db))
    ∧ (∀ o, findOrder db order_id = some o →
        lowerStr o.customer.email = lowerStr customer_email →
        skuInOrder o product_sku = true → now - o.order_date > 30 →
        initiate_return now rand db order_id product_sku reason customer_email =
          (.failure (returnExpiredMsg (now - o.order_date)), db))
    ∧ (∀ d : Int, List.Pairwise (· ≠ ·) [returnNotFoundMsg order_id, returnEmailMsg,
        returnSkuMsg product_sku order_id, returnExpiredMsg d])
    ∧ (∀ rid m ns db',
        initiate_return now rand db order_id product_sku reason customer_email =
          (.success rid m ns, db') →
        rid = retIdStr rand ∧ isRETId rid = true ∧
        db'.returns = db.returns ++
          [{ id := rid, order_id := order_id, product_sku := product_sku,
             reason := reason, status := "pending", created_at := now }]) := by
  refine ⟨⟨?_, ?_⟩,
    initiate_return_none_eq now rand db order_id product_sku reason customer_email,
    initiate_return_email_eq now rand db order_id product_sku reason customer_email,
    initiate_return_sku_eq now rand db order_id product_sku reason customer_email,
    initiate_return_expired_eq now rand db order_id product_sku reason customer_email,
    fun d => returnMsgs_pairwise_ne order_id product_sku d, ?_⟩
  · intro ⟨rid, m, ns, db', h⟩
    cases hfind : findOrder db order_id with
    | none =>
      rw [initiate_return_none_eq now rand db order_id product_sku reason
        customer_email hfind] at h
      exact InitiateReturnResult.noConfusion (congrArg Prod.fst h)
    | some o =>
      by_cases hmail : lowerStr o.customer.email = lowerStr customer_email
      · cases hsku : skuInOrder o product_sku with
        | false =>
          rw [initiate_return_sku_eq now rand db order_id product_sku reason
            customer_email o hfind hmail hsku] at h
          exact InitiateReturnResult.noConfusion (congrArg Prod.fst h)
        | true =>
          by_cases hdays : now - o.order_date > 30
          · rw [initiate_return_expired_eq now rand db order_id product_sku reason
              customer_email o hfind hmail hsku hdays] at h
            exact InitiateReturnResult.noConfusion (congrArg Prod.fst h)
          · exact ⟨o, rfl, hmail, hsku, by omega⟩
      · rw [initiate_return_email_eq now rand db order_id product_sku reason
          customer_email o hfind hmail] at h
        exact InitiateReturnResult.noConfusion (congrArg Prod.fst h)
  · intro ⟨o, hfind, hmail, hsku, hdays⟩
    exact ⟨_, _, _, _, initiate_return_success_eq now rand db order_id product_sku
      reason customer_email o hfind hmail hsku hdays⟩
  · intro rid m ns db' h
    cases hfind : findOrder db order_id with
    | none =>
      rw [initiate_return_none_eq now rand db order_id product_sku reason
        customer_email hfind] at h
      exact InitiateReturnResult.noConfusion (congrArg Prod.fst h)
    | some o =>
      by_cases hmail : lowerStr o.customer.email = lowerStr customer_email
      · cases hsku : skuInOrder o product_sku with
        | false =>
          rw [initiate_return_sku_eq now rand db order_id product_sku reason
            customer_email o hfind hmail hsku] at h
          exact InitiateReturnResult.noConfusion (congrArg Prod.fst h)
        | true =>
          by_cases hdays : now - o.order_date > 30
          · rw [initiate_return_expired_eq now rand db order_id product_sku reason
              customer_email o hfind hmail hsku hdays] at h
            exact InitiateReturnResult.noConfusion (congrArg Prod.fst h)
          · rw [initiate_return_success_eq now rand db order_id product_sku reason
              customer_email o hfind hmail hsku (by omega), Prod.mk.injEq] at h
            obtain ⟨h1, h2⟩ := h
            rw [InitiateReturnResult.success.injEq] at h1
            obtain ⟨hrid, -, -⟩ := h1
            refine ⟨hrid.symm, hrid ▸ isRETId_of_range rand hr1 hr2, ?_⟩
            rw [← h2, hrid]
      · rw [initiate_return_email_eq now rand db order_id product_sku reason
          customer_email o hfind hmail] at h
        exact InitiateReturnResult.noConfusion (congrArg Prod.fst h)

/-- Witness for C1 at the concrete store: the four checks pass for `ORD001`
/ `SKU001` / the owner's email ten days after the order, so the call
succeeds. -/
theorem initiate_return_spec_witness :
    (1000 : Nat) ≤ 1234 ∧ (1234 : Nat) ≤ 9999 ∧
    (∃ rid m ns db', initiate_return 10 1234 exampleDB "ORD001" "SKU001"
      "defective" "john@example.com" = (.success rid m ns, db')) := by
  refine ⟨by decide, by decide, ?_⟩
  exact (initiate_return_spec 10 1234 exampleDB "ORD001" "SKU001" "defective"
    "john@example.com" (by decide) (by decide)).1.mpr
    ⟨ord001, by decide, by decide, by decide, by decide⟩

/-- Claim C4: every failure path of `initiate_return` returns the store
unchanged (so no `ReturnRequest` row is created), and consequently any
sequence of failing calls leaves the stored `returns` table exactly as it
was.  Failures are ordinary result values of the total function, never an
exception. -/
theorem initiate_return_failure_pure (now : Int) (rand : Nat) :
    (∀ db oid sku reason email m db',
      initiate_return now rand db oid sku reason email = (.failure m, db') → db' = db)
    ∧ (∀ calls db, allCallsFail now rand calls db →
        (runCalls now rand calls db).returns = db.returns) := by
  have base : ∀ db oid sku reason email m db',
      initiate_return now rand db oid sku reason email = (.failure m, db') → db' = db := by
    intro db oid sku reason email m db' h
    cases hfind : findOrder db oid with
    | none =>
      rw [initiate_return_none_eq now rand db oid sku reason email hfind] at h
      exact (congrArg Prod.snd h).symm
    | some o =>
      by_cases hmail : lowerStr o.customer.email = lowerStr email
      · cases hsku : skuInOrder o sku with
        | false =>
          rw [initiate_return_sku_eq now rand db oid sku reason email o hfind
            hmail hsku] at h
          exact (congrArg Prod.snd h).symm
        | true =>
          by_cases hdays : now - o.order_date > 30
          · rw [initiate_return_expired_eq now rand db oid sku reason email o hfind
              hmail hsku hdays] at h
            exact (congrArg Prod.snd h).symm
          · rw [initiate_return_success_eq now rand db oid sku reason email o hfind
              hmail hsku (by omega)] at h
            exact InitiateReturnResult.noConfusion (congrArg Prod.fst h)
      · rw [initiate_return_email_eq now rand db oid sku reason email o hfind hmail] at h
        exact (congrArg Prod.snd h).symm
  refine ⟨base, ?_⟩
  intro calls
  induction calls with
  | nil => intro db _; rfl
  | cons c cs ih =>
    intro db hfail
    obtain ⟨⟨m, hm⟩, hrest⟩ := hfail
    have hdb : (initiate_return now rand db c.1 c.2.1 c.2.2.1 c.2.2.2).2 = db :=
      base db c.1 c.2.1 c.2.2.1 c.2.2.2 m _ (by rw [← hm])
    calc (runCalls now rand (c :: cs) db).returns
        = (runCalls now rand cs (initiate_return now rand db c.1 c.2.1 c.2.2.1 c.2.2.2).2).returns := rfl
      _ = (initiate_return now rand db c.1 c.2.1 c.2.2.1 c.2.2.2).2.returns := ih _ hrest
      _ = db.returns := by rw [hdb]

/-- Witness for C4: two failing calls (unknown order, then wrong email) leave
the concrete store's `returns` table empty. -/
theorem initiate_return_failure_pure_witness :
    allCallsFail 0 1234 [("ORD999", "SKU001", "bad", "john@example.com"),
      ("ORD001", "SKU001", "bad", "nobody@example.com")] exampleDB ∧
    (runCalls 0 1234 [("ORD999", "SKU001", "bad", "john@example.com"),
      ("ORD001", "SKU001", "bad", "nobody@example.com")] exampleDB).returns =
      exampleDB.returns := by
  have hfail : allCallsFail 0 1234 [("ORD999", "SKU001", "bad", "john@example.com"),
      ("ORD001", "SKU001", "bad", "nobody@example.com")] exampleDB :=
    ⟨⟨returnNotFoundMsg "ORD999", by decide⟩,
     ⟨returnEmailMsg, by decide⟩, trivial⟩
  exact ⟨hfail, (initiate_return_failure_pure 0 1234).2 _ exampleDB hfail⟩

/-- Claim C10: the SKU membership check of `initiate_return` is exact and
case-sensitive — when the requested SKU differs from every stored item SKU,
yet matches one of them up to letter case, the call fails with the
product-not-found message, even while the email check in the same call
accepts a case-changed email. -/
theorem initiate_return_sku_case_sensitive (now : Int) (rand : Nat) (db : DB)
    (order_id product_sku reason customer_email : String) (o : Order)
    (hfind : findOrder db order_id = some o)
    (hmail : lowerStr o.customer.email = lowerStr customer_email)
    (hexact : ∀ item ∈ o.items, item.product.sku ≠ product_sku)
    (hcase : ∃ item ∈ o.items, lowerStr item.product.sku = lowerStr product_sku) :
    initiate_return now rand db order_id product_sku reason customer_email =
      (.failure (returnSkuMsg product_sku order_id), db) := by
  have hsku : skuInOrder o product_sku = false := by
    rw [skuInOrder, List.any_eq_false]
    intro item hitem
    simpa using hexact item hitem
  exact initiate_return_sku_eq now rand db order_id product_sku reason
    customer_email o hfind hmail hsku

/-- Witness for C10: requesting `sku001` against the stored `SKU001`, with the
owner's email in changed case, fails with the product-not-found message. -/
theorem initiate_return_sku_case_sensitive_witness :
    initiate_return 0 1234 exampleDB "ORD001" "sku001" "defective" "JOHN@EXAMPLE.COM" =
      (.failure (returnSkuMsg "sku001" "ORD001"), exampleDB) := by
  exact initiate_return_sku_case_sensitive 0 1234 exampleDB "ORD001" "sku001"
    "defective" "JOHN@EXAMPLE.COM" ord001 (by decide) (by decide)
    (by decide) ⟨⟨headphonesProduct, 1⟩, by decide, by decide⟩

/-- Counterexample to C6 as stated: in the concrete store the customer's email
is `john@example.com`; querying with the case-changed `JOHN@EXAMPLE.COM`
matches it case-insensitively, yet `list_customer_orders` answers with the
not-found failure instead of the customer's orders. -/
theorem list_customer_orders_case_cex :
    lowerStr "JOHN@EXAMPLE.COM" = lowerStr johnCustomer.email ∧
    johnCustomer ∈ exampleDB.customers ∧
    list_customer_orders exampleDB "JOHN@EXAMPLE.COM" = .failure noCustomerMsg := by
  exact ⟨by decide, by decide, by decide⟩

/-- Claim C6 (amended): `list_customer_orders` finds the customer by exact
string equality on the stored email — it succeeds, with one summary
(id, status, total, date, item count) per order the customer owns, exactly
when some stored customer's email equals the argument verbatim, and returns
the not-found failure otherwise; a case-changed email is not matched. -/
theorem list_customer_orders_spec (db : DB) (customer_email : String) :
    ((∃ name orders, list_customer_orders db customer_email = .success name orders) ↔
      (∃ c, findCustomer db customer_email = some c))
    ∧ (∀ c, findCustomer db customer_email = some c →
        list_customer_orders db customer_email =
          .success c.name ((customerOrders db c).map summarizeOrder))
    ∧ (findCustomer db customer_email = none →
        list_customer_orders db customer_email = .failure noCustomerMsg) := by
  refine ⟨⟨?_, ?_⟩, ?_, ?_⟩
  · intro ⟨name, orders, h⟩
    cases hfind : findCustomer db customer_email with
    | none =>
      simp only [list_customer_orders, hfind] at h
      exact ListOrdersResult.noConfusion h
    | some c => exact ⟨c, rfl⟩
  · intro ⟨c, hfind⟩
    exact ⟨c.name, (customerOrders db c).map summarizeOrder,
      by simp only [list_customer_orders, hfind]⟩
  · intro c hfind
    simp only [list_customer_orders, hfind]
  · intro hfind
    simp only [list_customer_orders, hfind]

/-- Witness for C6's amended statement: the exact stored email succeeds with
the one summary of the customer's single order. -/
theorem list_customer_orders_spec_witness :
    (∃ name orders, list_customer_orders exampleDB "john@example.com" = .success name orders)
    ∧ list_customer_orders exampleDB "john@example.com" =
        .success johnCustomer.name ((customerOrders exampleDB johnCustomer).map summarizeOrder) := by
  constructor
  · exact (list_customer_orders_spec exampleDB "john@example.com").1.mpr
      ⟨johnCustomer, by decide⟩
  · exact (list_customer_orders_spec exampleDB "john@example.com").2.1
      johnCustomer (by decide)

/-- Claim C3: any query that contains one of the ten denylisted verbs — in any
letter case, at any position — is rejected by the safety gate with the
keyword-specific error, independently of the database engine, so it is never
executed. -/
theorem execute_safe_query_gate (q : String)
    (h : ∃ kw ∈ dangerous_keywords, ∃ pre mid post : List Char,
      q.data = pre ++ mid ++ post ∧ mid.map Char.toUpper = kw.data) :
    ∃ k ∈ dangerous_keywords, ∀ dbExec : DbExec,
      execute_safe_query dbExec q = .error (dangerMsg k) := by
  obtain ⟨kw, hkw, pre, mid, post, hsplit, hup⟩ := h
  have hcontains : containsKeyword q kw = true := by
    rw [containsKeyword, decide_eq_true_eq]
    exact ⟨pre.map Char.toUpper, post.map Char.toUpper, by
      rw [upperData, hsplit]
      simp [hup]⟩
  have hsome : (dangerous_keywords.find? (fun kw => containsKeyword q kw)).isSome := by
    rw [List.find?_isSome]
    exact ⟨kw, hkw, hcontains⟩
  obtain ⟨k, hk⟩ := Option.isSome_iff_exists.mp hsome
  refine ⟨k, List.mem_of_find?_eq_some hk, fun dbExec => ?_⟩
  simp only [execute_safe_query, hk]

/-- Witness for C3: a query carrying `dRoP` in mixed case is rejected whether
the engine would fail or answer. -/
theorem execute_safe_query_gate_witness :
    ∃ k ∈ dangerous_keywords,
      execute_safe_query (fun _ => Except.error "engine unavailable")
        "SELECT 1; dRoP TABLE users" = .error (dangerMsg k) ∧
      execute_safe_query (fun _ => Except.ok ⟨[], []⟩)
        "SELECT 1; dRoP TABLE users" = .error (dangerMsg k) := by
  obtain ⟨k, hk, hall⟩ := execute_safe_query_gate "SELECT 1; dRoP TABLE users"
    ⟨"DROP", by decide, "SELECT 1; ".data, "dRoP".data, " TABLE users".data,
      by decide, by decide⟩
  exact ⟨k, hk, hall _, hall _⟩

/-- On the non-raising path the reported count is the number of rows. -/
theorem execute_safe_query_count (dbExec : DbExec) (sql_query : String)
    (r : ExecResult) (h : execute_safe_query dbExec sql_query = .ok r) :
    r.count = r.data.length ∧
    r.explanation = generate_result_explanation sql_query r.data := by
  rw [execute_safe_query] at h
  cases hfind : dangerous_keywords.find? (fun kw => containsKeyword sql_query kw) with
  | some k => rw [hfind] at h; exact Except.noConfusion h
  | none =>
    rw [hfind] at h
    cases hex : dbExec sql_query with
    | error e => rw [hex] at h; exact Except.noConfusion h
    | ok out =>
      rw [hex] at h
      obtain rfl := (Except.ok.injEq _ _).mp h.symm
      exact ⟨rfl, rfl⟩

/-- Claim C5: `query_database` is a total function into two envelope shapes —
every internal failure (synthesis, safety gate, execution) becomes a failure
envelope whose user-facing message is always the generic rephrase prompt with
the internal reason kept in the error field, and the success envelope carries
the question, the generated query, the rows, their count, and the gloss. -/
theorem query_database_spec (synthesize : Except String String) (dbExec : DbExec)
    (question : String) :
    (∀ e m, query_database synthesize dbExec question = .failure e m → m = rephraseMsg)
    ∧ ((∃ e, query_database synthesize dbExec question = .failure e rephraseMsg) ∨
       (∃ sql res, synthesize = .ok sql ∧ execute_safe_query dbExec sql = .ok res ∧
        query_database synthesize dbExec question =
          .success question sql res.data res.data.length
            (generate_result_explanation sql res.data))) := by
  constructor
  · intro e m h
    cases hsyn : synthesize with
    | error e' =>
      simp only [query_database, hsyn, QueryDatabaseResult.failure.injEq] at h
      exact h.2.symm
    | ok sql =>
      cases hex : execute_safe_query dbExec sql with
      | error e' =>
        simp only [query_database, hsyn, hex, QueryDatabaseResult.failure.injEq] at h
        exact h.2.symm
      | ok r =>
        simp only [query_database, hsyn, hex] at h
        exact QueryDatabaseResult.noConfusion h
  · cases hsyn : synthesize with
    | error e' => exact Or.inl ⟨e', by simp only [query_database, hsyn]⟩
    | ok sql =>
      cases hex : execute_safe_query dbExec sql with
      | error e' => exact Or.inl ⟨e', by simp only [query_database, hsyn, hex]⟩
      | ok r =>
        obtain ⟨hc, hexp⟩ := execute_safe_query_count dbExec sql r hex
        exact Or.inr ⟨sql, r, rfl, hex, by
          simp only [query_database, hsyn, hex, hc, hexp]⟩

/-- Witness for C5: a failed synthesis at a concrete question produces the
failure envelope with the generic message. -/
theorem query_database_spec_witness :
    rephraseMsg = rephraseMsg ∧
    query_database (Except.error "model unavailable")
      (fun _ => Except.ok ⟨[], []⟩) "How many orders are pending?" =
      .failure "model unavailable" rephraseMsg := by
  exact ⟨(query_database_spec (Except.error "model unavailable")
    (fun _ => Except.ok ⟨[], []⟩) "How many orders are pending?").1
    "model unavailable" rephraseMsg rfl, rfl⟩

/-- Every formatted passage starts with the asterisk of its source tag. -/
theorem formatDoc_head (d : KDoc) : (formatDoc d).data.head? = some '*' := by
  rw [formatDoc]
  cases hs : sourceTag d with
  | mk l =>
    cases d.page_content with
    | mk l' => rfl

/-- Joining a non-empty list of strings keeps the first string's first
character. -/
theorem joinBlank_head (x : String) (xs : List String) {c : Char}
    (h : x.data.head? = some c) : (joinBlank (x :: xs)).data.head? = some c := by
  cases xs with
  | nil => exact h
  | cons y ys =>
    show ((x ++ "\n\n") ++ joinBlank (y :: ys)).data.head? = some c
    rw [data_append, data_append]
    cases hx : x.data with
    | nil => rw [hx] at h; exact Option.noConfusion h
    | cons a as =>
      rw [hx] at h
      simpa using h

/-- Claim C7: `search_company_knowledge` asks the index for the top 3 matches
and answers with the explicit sentinel exactly when that search comes back
empty (the sentinel is itself a non-empty string); otherwise it answers with
the blank-line join of one formatted passage per retrieved document — at most
3 of them, given the index's top-k contract — each carrying exactly its own
source-type label. -/
theorem search_company_knowledge_spec (similarity : String → Nat → List KDoc)
    (query : String) (hk : (similarity query 3).length ≤ 3) :
    (search_company_knowledge similarity query = noInfoSentinel ↔
      similarity query 3 = [])
    ∧ noInfoSentinel ≠ ""
    ∧ (similarity query 3 ≠ [] →
        search_company_knowledge similarity query =
          joinBlank ((similarity query 3).map formatDoc)
        ∧ ((similarity query 3).map formatDoc).length ≤ 3
        ∧ ∀ d ∈ similarity query 3, formatDoc d =
            "**Source: " ++ sourceTag d ++ "**\n" ++ d.page_content) := by
  refine ⟨⟨fun h => ?_, fun h => ?_⟩, by decide, fun hne => ?_⟩
  · by_contra hne
    cases hres : similarity query 3 with
    | nil => exact hne hres
    | cons d ds =>
      rw [search_company_knowledge] at h
      simp only [hres, List.isEmpty_cons] at h
      rw [if_neg (by decide)] at h
      have hhead := joinBlank_head (formatDoc d) (ds.map formatDoc) (formatDoc_head d)
      rw [List.map_cons] at h
      rw [h] at hhead
      have hc : ('*' : Char) = 'N' :=
        Option.some.inj (hhead.symm.trans
          (show noInfoSentinel.data.head? = some 'N' from rfl))
      exact absurd hc (by decide)
  · rw [search_company_knowledge]
    simp [h]
  · refine ⟨?_, ?_, fun d _ => rfl⟩
    · rw [search_company_knowledge]
      simp only [List.isEmpty_iff, if_neg hne]
    · simpa using hk

/-- Witness for C7 at a concrete index: two policy passages come back joined
and labelled; an index returning nothing yields the sentinel. -/
theorem search_company_knowledge_spec_witness :
    ([KDoc.mk "Returns accepted within 30 days." (some "policy")].length ≤ 3)
    ∧ search_company_knowledge
        (fun _ _ => [KDoc.mk "Returns accepted within 30 days." (some "policy")])
        "return policy" =
      "**Source: policy**\nReturns accepted within 30 days."
    ∧ search_company_knowledge (fun _ _ => []) "return policy" = noInfoSentinel := by
  refine ⟨by decide, ?_, ?_⟩
  · have h := (search_company_knowledge_spec
      (fun _ _ => [KDoc.mk "Returns accepted within 30 days." (some "policy")])
      "return policy" (by decide)).2.2 (by decide)
    rw [h.1]
    rfl
  · exact (search_company_knowledge_spec (fun _ _ => []) "return policy"
      (by decide)).1.mpr rfl

/-- Claim C8: the `/chat` endpoint echoes a supplied non-empty session id and
otherwise returns the fresh one; the user message sent to the agent is the
user's text, prefixed with the `[Customer Email: ...]` line exactly when a
non-empty identity hint was supplied; and the system instruction is prepended
to the turn's messages exactly when the stored history is empty at lookup
time. -/
theorem chat_spec (env : ChatEnv) (request : ChatRequest) :
    (∀ s, request.session_id = some s → s ≠ "" →
      (chat env request).1.session_id = s)
    ∧ (request.session_id = none → (chat env request).1.session_id = env.fresh_uuid)
    ∧ (∃ u : String,
        (request.customer_email ≠ "" →
          u = "[Customer Email: " ++ request.customer_email ++ "]\n" ++ request.message)
        ∧ (request.customer_email = "" → u = request.message)
        ∧ (storedEmpty env → (chat env request).2 =
            [.system (env.system_prompt request.enable_sql_queries), .human u])
        ∧ (¬ storedEmpty env → (chat env request).2 = [.human u])) := by
  refine ⟨?_, ?_, ?_⟩
  · intro s hs hne
    simp only [chat, hs, if_neg hne]
  · intro hs
    simp only [chat, hs]
  · refine ⟨if request.customer_email ≠ "" then
      "[Customer Email: " ++ request.customer_email ++ "]\n" ++ request.message
      else request.message, fun h => by rw [if_pos h], fun h => by simp [h], ?_, ?_⟩
    · intro hempty
      rcases hempty with h | h
      · simp only [chat, h]
        rfl
      · simp only [chat, h]
        rfl
    · intro hnot
      cases hstate : env.stored_state with
      | none => exact absurd (Or.inl hstate) hnot
      | some msgs =>
        cases msgs with
        | nil => exact absurd (Or.inr hstate) hnot
        | cons m ms =>
          simp only [chat, hstate]
          rfl

/-- Witness for C8: with a supplied session id, a supplied email, and a
non-empty stored history, the id is echoed and the single human message
carries the email prefix and the user's text, with no system message. -/
theorem chat_spec_witness :
    (chat chatEnvW chatReqW).1.session_id = "sess-1"
    ∧ (chat chatEnvW chatReqW).2 =
      [.human "[Customer Email: john@example.com]\nWhere is my order?"] := by
  obtain ⟨hecho, -, u, hu, -, -, hold⟩ := chat_spec chatEnvW chatReqW
  have hne : ¬ storedEmpty chatEnvW := by
    rw [storedEmpty]
    rintro (h | h) <;> simp [chatEnvW] at h
  refine ⟨hecho "sess-1" rfl (by decide), ?_⟩
  rw [hold hne, hu (by decide)]
  rfl

end OrderAssist
